import Mathlib

/-!
# RefillRadar medication reminder calculator: a shallow embedding

This file embeds `src/backend/database/calc_reminders.py` in Lean 4 and
settles the frozen claims about it.

Modelling conventions:

* A Python naive `datetime` is denoted by the instant it names, counted as an
  integer number of microseconds from an arbitrary midnight origin of the
  proleptic calendar (microseconds are `datetime`'s resolution).  Under this
  denotation `datetime + timedelta` is integer addition, `datetime`
  comparison is integer comparison, and the time-of-day attributes `hour`,
  `minute`, `second`, `microsecond` are the Euclidean quotient/remainder
  functions below (`Int`'s `/` and `%` are Euclidean division, which for the
  positive constant divisors used here agrees with Python's floor division).
* Python `int` is arbitrary precision, hence `Int` with no wrap-around.
* `math.ceil(a / b)` (exact division, then ceiling) is `mathCeilDiv a b`,
  proved below to equal `⌈(a : ℚ) / b⌉`; Python raises `ZeroDivisionError`
  when `b = 0`, which the embedding makes explicit before the division.
* Fallible Python code (functions that can raise) returns `Except CalcError`.
* For the textual serialization (`isoformat` / `fromisoformat`) a naive
  `datetime` is embedded by its seven stored fields (`PyDateTime` below),
  since those functions read and rebuild exactly those fields; `ofInstant`
  converts the instant view to the field view by the standard civil-calendar
  conversion.
-/

namespace RefillRadar

deriving instance DecidableEq for Except

/-- Microseconds per second. -/
def usPerSecond : Int := 1000000

/-- Microseconds per minute. -/
def usPerMinute : Int := 60000000

/-- Microseconds per hour (`timedelta(hours=1)`). -/
def usPerHour : Int := 3600000000

/-- Microseconds per day (`timedelta(days=1)` = 24 hours). -/
def usPerDay : Int := 86400000000

/-- Microseconds per week (`timedelta(weeks=1)` = 7 days). -/
def usPerWeek : Int := 604800000000

/-- The `hour` attribute of a naive `datetime` under the instant denotation. -/
def dtHour (t : Int) : Int := t % usPerDay / usPerHour

/-- The `minute` attribute of a naive `datetime` under the instant denotation. -/
def dtMinute (t : Int) : Int := t % usPerHour / usPerMinute

/-- The `second` attribute of a naive `datetime` under the instant denotation. -/
def dtSecond (t : Int) : Int := t % usPerMinute / usPerSecond

/-- The `microsecond` attribute of a naive `datetime` under the instant denotation. -/
def dtMicrosecond (t : Int) : Int := t % usPerSecond

/-- The exceptions the embedded code can raise.  The spec's `InvalidArgument`
taxonomy entry corresponds to the `ValueError`s raised with an explicit
message by `calc_reminders.py` (`invalidDosageFrequency`, `invalidReminderUnit`,
`invalidRepeatUnit`); `zeroDivisionError` is Python's `ZeroDivisionError` at
the division of line 38; `invalidTimeField` is the `ValueError` that
`datetime.replace` raises for an out-of-range field; `parseError` is the
`ValueError` of `datetime.fromisoformat` on malformed text. -/
inductive CalcError where
  | zeroDivisionError : CalcError
  | invalidDosageFrequency : String → CalcError
  | invalidReminderUnit : String → CalcError
  | invalidRepeatUnit : String → CalcError
  | invalidTimeField : CalcError
  | parseError : String → CalcError
  deriving DecidableEq, Repr

/-- `math.ceil(a / b)` for integers `a`, `b` with exact (rational) division:
the ceiling of `a / b`, written with Python's floor division `//` (`Int.fdiv`)
as `-((-a) // b)`.  `mathCeilDiv_eq_ceil` below proves it equal to
`⌈(a : ℚ) / b⌉` for `b > 0`. -/
def mathCeilDiv (a b : Int) : Int := -((-a).fdiv b)

/-- Embeds `MedicationReminderCalculator.calculate_end_date`
(`calc_reminders.py` lines 7-49).  `base_date` mirrors line 35 (a `datetime`
object is always truthy in Python, so `and start_time` tests only for
`None`); the division of line 38 raises `ZeroDivisionError` when
`max_dosage == 0`, otherwise `doses = math.ceil(total_supply / max_dosage)`;
lines 40-49 subtract one dose when `doses > 0` and branch on the frequency
token, raising `ValueError` on an unrecognized one. -/
def calculate_end_date (start_date : Int) (max_dosage : Int)
    (dosage_frequency : String) (total_supply : Int) (dosage_interval : Int)
    (start_time : Option Int) : Except CalcError Int :=
  let base_date :=
    match start_time with
    | some t => if dosage_frequency = "HOUR(S)" then t else start_date
    | none => start_date
  if max_dosage = 0 then
    Except.error CalcError.zeroDivisionError
  else
    let doses : Int := mathCeilDiv total_supply max_dosage
    let additional_doses : Int := if doses > 0 then doses - 1 else 0
    if dosage_frequency = "HOUR(S)" then
      Except.ok (base_date + additional_doses * dosage_interval * usPerHour)
    else if dosage_frequency = "DAY(S)" then
      Except.ok (base_date + additional_doses * dosage_interval * usPerDay)
    else if dosage_frequency = "WEEK(S)" then
      Except.ok (base_date + additional_doses * dosage_interval * usPerWeek)
    else
      Except.error (CalcError.invalidDosageFrequency dosage_frequency)

/-- The `default_reminder_time` dictionary (keys `hour` and `minute`). -/
structure ReminderTime where
  hour : Int
  minute : Int
  deriving DecidableEq, Repr

/-- The value computed by `datetime.replace(hour, minute, second, microsecond)`:
same calendar day, the given time of day. -/
def replaceTimeVal (t h m s us : Int) : Int :=
  t - t % usPerDay + h * usPerHour + m * usPerMinute + s * usPerSecond + us

/-- Embeds `datetime.replace(hour=h, minute=m, second=s, microsecond=us)`:
Python validates each replaced field's range and raises `ValueError` when one
is out of range. -/
def replaceTime (t h m s us : Int) : Except CalcError Int :=
  if 0 ≤ h ∧ h < 24 ∧ 0 ≤ m ∧ m < 60 ∧ 0 ≤ s ∧ s < 60 ∧ 0 ≤ us ∧ us < 1000000 then
    Except.ok (replaceTimeVal t h m s us)
  else
    Except.error CalcError.invalidTimeField

/-- Embeds lines 81-88 of `calc_reminders.py`: the first reminder before time
normalization, branching on `reminder_unit` (note the source's third token is
`"(HOUR(S))"`, with the extra parentheses, exactly as written there). -/
def preFirstReminder (end_date : Int) (duration_prior : Int)
    (reminder_unit : String) : Except CalcError Int :=
  if reminder_unit = "WEEK(S)" then
    Except.ok (end_date - duration_prior * usPerWeek)
  else if reminder_unit = "DAY(S)" then
    Except.ok (end_date - duration_prior * usPerDay)
  else if reminder_unit = "(HOUR(S))" then
    Except.ok (end_date - duration_prior * usPerHour)
  else
    Except.error (CalcError.invalidReminderUnit reminder_unit)

/-- Embeds lines 81-96 of `calc_reminders.py`: the first reminder with its
time of day forced to `default_reminder_time` and seconds/microseconds zeroed. -/
def firstReminder (end_date : Int) (duration_prior : Int)
    (reminder_unit : String) (drt : ReminderTime) : Except CalcError Int := do
  let pre ← preFirstReminder end_date duration_prior reminder_unit
  replaceTime pre drt.hour drt.minute 0 0

/-- Embeds the body of the loop at lines 101-109 of `calc_reminders.py`:
the `i`-th repeat reminder, branching on `repeat_unit` (tokens `"WEEK(S)"`,
`"DAY(S)"`, `"HOUR(S)"`). -/
def nextReminder (first_reminder : Int) (repeat_unit : String)
    (repeat_intervals : Int) (i : Int) : Except CalcError Int :=
  if repeat_unit = "WEEK(S)" then
    Except.ok (first_reminder + i * repeat_intervals * usPerWeek)
  else if repeat_unit = "DAY(S)" then
    Except.ok (first_reminder + i * repeat_intervals * usPerDay)
  else if repeat_unit = "HOUR(S)" then
    Except.ok (first_reminder + i * repeat_intervals * usPerHour)
  else
    Except.error (CalcError.invalidRepeatUnit repeat_unit)

/-- The loop at lines 101-111 of `calc_reminders.py`, one call per loop
index: compute the next reminder (raising on an unrecognized `repeat_unit`)
and append it.  The list argument carries the zero-based loop indices, so
iteration `j` computes the reminder for `i = j + 1` as `range(1, n + 1)`
does. -/
def reminderLoop (first_reminder : Int) (repeat_unit : String) (repeat_intervals : Int) :
    List Nat → Except CalcError (List Int)
  | [] => Except.ok []
  | j :: rest => do
    let next ← nextReminder first_reminder repeat_unit repeat_intervals ((j : Int) + 1)
    let more ← reminderLoop first_reminder repeat_unit repeat_intervals rest
    Except.ok (next :: more)

/-- Embeds `MedicationReminderCalculator.calculate_reminder_dates`
(`calc_reminders.py` lines 52-113).  The default time is `hour 8, minute 0`
when the caller supplies none (lines 77-78); the loop `for i in
range(1, repeat_reminders + 1)` appends one reminder per `i`, raising at the
first unrecognized `repeat_unit` (so with `repeat_reminders <= 0` the loop
body, and its unit check, never run). -/
def calculate_reminder_dates (end_date : Int) (duration_prior : Int)
    (reminder_unit : String) (repeat_reminders : Int) (repeat_intervals : Int)
    (repeat_unit : String) (default_reminder_time : Option ReminderTime) :
    Except CalcError (List Int) := do
  let drt := default_reminder_time.getD ⟨8, 0⟩
  let first_reminder ← firstReminder end_date duration_prior reminder_unit drt
  let tail ← reminderLoop first_reminder repeat_unit repeat_intervals
    (List.range repeat_reminders.toNat)
  Except.ok (first_reminder :: tail)

/-! ## The field view of a naive datetime, and ISO-8601 serialization -/

/-- A Python naive `datetime` by its seven stored fields: the view
`isoformat` and `fromisoformat` read and rebuild. -/
structure PyDateTime where
  year : Nat
  month : Nat
  day : Nat
  hour : Nat
  minute : Nat
  second : Nat
  microsecond : Nat
  deriving DecidableEq, Repr

/-- The proleptic-Gregorian leap-year rule used by `datetime`. -/
def isLeap (y : Nat) : Bool := y % 4 = 0 && (y % 100 ≠ 0 || y % 400 = 0)

/-- Days in a month of a given year, as `datetime` validates them. -/
def daysInMonth (y m : Nat) : Nat :=
  if m = 2 then (if isLeap y then 29 else 28)
  else if m = 4 ∨ m = 6 ∨ m = 9 ∨ m = 11 then 30
  else 31

/-- The range invariants the `datetime` constructor enforces
(`MINYEAR = 1`, `MAXYEAR = 9999`, and field ranges). -/
def PyDateTime.Valid (d : PyDateTime) : Prop :=
  1 ≤ d.year ∧ d.year ≤ 9999 ∧ 1 ≤ d.month ∧ d.month ≤ 12 ∧
    1 ≤ d.day ∧ d.day ≤ daysInMonth d.year d.month ∧
    d.hour ≤ 23 ∧ d.minute ≤ 59 ∧ d.second ≤ 59 ∧ d.microsecond ≤ 999999

instance (d : PyDateTime) : Decidable d.Valid := by
  unfold PyDateTime.Valid
  infer_instance

/-- The decimal digit character for `n < 10`. -/
def digitChar (n : Nat) : Char := Char.ofNat (48 + n)

/-- Two-digit zero-padded decimal rendering (`"%02d"` for values below 100). -/
def pad2 (n : Nat) : List Char := [digitChar (n / 10 % 10), digitChar (n % 10)]

/-- Four-digit zero-padded decimal rendering (`"%04d"` for values below 10000). -/
def pad4 (n : Nat) : List Char :=
  [digitChar (n / 1000 % 10), digitChar (n / 100 % 10), digitChar (n / 10 % 10),
    digitChar (n % 10)]

/-- Six-digit zero-padded decimal rendering (`"%06d"` for values below 1000000). -/
def pad6 (n : Nat) : List Char :=
  [digitChar (n / 100000 % 10), digitChar (n / 10000 % 10), digitChar (n / 1000 % 10),
    digitChar (n / 100 % 10), digitChar (n / 10 % 10), digitChar (n % 10)]

/-- Embeds `datetime.isoformat()` for a naive datetime:
`YYYY-MM-DDTHH:MM:SS`, with `.ffffff` appended exactly when the microsecond
field is nonzero. -/
def isoformat (d : PyDateTime) : List Char :=
  pad4 d.year ++ '-' :: pad2 d.month ++ '-' :: pad2 d.day ++ 'T' :: pad2 d.hour ++
    ':' :: pad2 d.minute ++ ':' :: pad2 d.second ++
    (if d.microsecond = 0 then [] else '.' :: pad6 d.microsecond)

/-- The numeric value of a decimal digit character, `none` otherwise. -/
def readDigit (c : Char) : Option Nat :=
  if '0' ≤ c ∧ c ≤ '9' then some (c.toNat - 48) else none

/-- Reads exactly two decimal digits. -/
def read2 : List Char → Option (Nat × List Char)
  | a :: b :: rest => do
    let x ← readDigit a
    let y ← readDigit b
    some (10 * x + y, rest)
  | _ => none

/-- Reads exactly four decimal digits. -/
def read4 : List Char → Option (Nat × List Char)
  | a :: b :: c :: d :: rest => do
    let x ← readDigit a
    let y ← readDigit b
    let z ← readDigit c
    let w ← readDigit d
    some (1000 * x + 100 * y + 10 * z + w, rest)
  | _ => none

/-- Reads exactly six decimal digits. -/
def read6 : List Char → Option (Nat × List Char)
  | a :: b :: c :: d :: e :: f :: rest => do
    let x ← readDigit a
    let y ← readDigit b
    let z ← readDigit c
    let w ← readDigit d
    let v ← readDigit e
    let u ← readDigit f
    some (100000 * x + 10000 * y + 1000 * z + 100 * w + 10 * v + u, rest)
  | _ => none

/-- Consumes one expected character. -/
def expectChar (c : Char) : List Char → Option (List Char)
  | a :: rest => if a = c then some rest else none
  | [] => none

/-- The structural part of `datetime.fromisoformat` on the canonical
`YYYY-MM-DDTHH:MM:SS[.ffffff]` texts that `isoformat` emits. -/
def parseIso (s : List Char) : Option PyDateTime := do
  let p4 ← read4 s
  let s1 ← expectChar '-' p4.2
  let pMo ← read2 s1
  let s2 ← expectChar '-' pMo.2
  let pD ← read2 s2
  let s3 ← expectChar 'T' pD.2
  let pH ← read2 s3
  let s4 ← expectChar ':' pH.2
  let pMi ← read2 s4
  let s5 ← expectChar ':' pMi.2
  let pS ← read2 s5
  match pS.2 with
  | [] => some ⟨p4.1, pMo.1, pD.1, pH.1, pMi.1, pS.1, 0⟩
  | _ => do
    let s6 ← expectChar '.' pS.2
    let pUs ← read6 s6
    match pUs.2 with
    | [] => some ⟨p4.1, pMo.1, pD.1, pH.1, pMi.1, pS.1, pUs.1⟩
    | _ => none

/-- Embeds `datetime.fromisoformat` on the canonical texts `isoformat`
emits: parse the fields, then validate them as the `datetime` constructor
does, raising `ValueError` on malformed text or out-of-range fields. -/
def fromisoformat (s : List Char) : Except CalcError PyDateTime :=
  match parseIso s with
  | some d => if d.Valid then Except.ok d else Except.error (CalcError.parseError (String.mk s))
  | none => Except.error (CalcError.parseError (String.mk s))

/-- Embeds `MedicationReminderCalculator.serialize_reminder_dates`
(`calc_reminders.py` lines 116-126): ISO strings for each date. -/
def serialize_reminder_dates (reminder_dates : List PyDateTime) : List (List Char) :=
  reminder_dates.map isoformat

/-- Embeds `deserialize_reminder_dates` (`calc_reminders.py` lines 175-185):
parse each ISO string back to a datetime in order, the first `ValueError`
aborting the comprehension. -/
def deserialize_reminder_dates : List (List Char) → Except CalcError (List PyDateTime)
  | [] => Except.ok []
  | s :: rest => do
    let d ← fromisoformat s
    let ds ← deserialize_reminder_dates rest
    Except.ok (d :: ds)

/-- The standard civil-from-days conversion (proleptic Gregorian calendar):
year, month, day of the day numbered `z`, with floor division throughout. -/
def civilFromDays (z : Int) : Int × Int × Int :=
  let era := z / 146097
  let doe := z % 146097
  let yoe := (doe - doe / 1460 + doe / 36524 - doe / 146096) / 365
  let y := yoe + era * 400
  let doy := doe - (365 * yoe + yoe / 4 - yoe / 100)
  let mp := (5 * doy + 2) / 153
  let d := doy - (153 * mp + 2) / 5 + 1
  let m := mp + (if mp < 10 then 3 else -9)
  (if m ≤ 2 then y + 1 else y, m, d)

/-- Converts the instant denotation of a naive `datetime` to its stored
fields (the representation Python holds and `isoformat` reads). -/
def ofInstant (t : Int) : PyDateTime :=
  let c := civilFromDays (t / usPerDay)
  let rem := t % usPerDay
  { year := c.1.toNat, month := c.2.1.toNat, day := c.2.2.toNat,
    hour := (rem / usPerHour).toNat, minute := (rem % usPerHour / usPerMinute).toNat,
    second := (rem % usPerMinute / usPerSecond).toNat,
    microsecond := (rem % usPerSecond).toNat }

/-! ## The medication record and the orchestration step -/

/-- The fields of the `Medication` model (`models.py` lines 37-78) that
`process_medication_reminders` reads or writes, plus the descriptive fields
it must leave untouched.  `end_date` and `reminder_dates` hold whatever the
record held before processing (they are overwritten by it). -/
structure Medication where
  id : Int
  user_id : Int
  med_name : String
  icon : Int
  color : Int
  details : Option String
  max_dosage : Int
  dosage_interval : Int
  dosage_frequency : String
  total_supply : Int
  start_date : Int
  start_time : Option Int
  end_date : Int
  duration_prior : Int
  reminder_unit : String
  repeat_reminders : Int
  repeat_intervals : Int
  repeat_unit : String
  reminder_dates : List (List Char)
  created_at : Int
  deriving DecidableEq, Repr

/-- The dictionary returned by `process_medication_reminders`
(keys `medication`, `end_date`, `reminder_dates`). -/
structure ProcessResult where
  medication : Medication
  end_date : Int
  reminder_dates : List Int
  deriving DecidableEq, Repr

/-- Embeds `process_medication_reminders` (`calc_reminders.py` lines
128-173): compute the end date, store it on the record (line 150), compute
the reminder schedule from it, serialize and store the schedule on the
record (line 167), and return the dictionary of line 169.  Exceptions from
the two calculators propagate.  The record's `datetime`-valued schedule is
serialized through its field view (`ofInstant`). -/
def process_medication_reminders (medication : Medication)
    (default_reminder_time : Option ReminderTime) : Except CalcError ProcessResult := do
  let end_date ← calculate_end_date medication.start_date medication.max_dosage
    medication.dosage_frequency medication.total_supply medication.dosage_interval
    medication.start_time
  let medication1 := { medication with end_date := end_date }
  let reminder_dates ← calculate_reminder_dates end_date medication1.duration_prior
    medication1.reminder_unit medication1.repeat_reminders medication1.repeat_intervals
    medication1.repeat_unit default_reminder_time
  let serialized_reminder_dates := serialize_reminder_dates (reminder_dates.map ofInstant)
  let medication2 := { medication1 with reminder_dates := serialized_reminder_dates }
  Except.ok { medication := medication2, end_date := end_date, reminder_dates := reminder_dates }

/-- The unit-conversion table of `calculate_end_date` lines 42-47:
microseconds per `dosage_frequency` unit. -/
def frequencyUs (freq : String) : Int :=
  if freq = "HOUR(S)" then usPerHour
  else if freq = "DAY(S)" then usPerDay
  else usPerWeek

/-! ## Arithmetic facts about the exact ceiling division -/

theorem fdiv_nonneg_of_nonpos_of_neg {a b : Int} (ha : a ≤ 0) (hb : b < 0) :
    0 ≤ a.fdiv b := by
  cases a with
  | ofNat n =>
    cases n with
    | zero => simp [Int.zero_fdiv]
    | succ m => simp only [Int.ofNat_eq_coe] at ha; omega
  | negSucc m =>
    cases b with
    | ofNat n => simp only [Int.ofNat_eq_coe] at hb; omega
    | negSucc n =>
      show (0 : Int) ≤ Int.ofNat (Nat.succ m / Nat.succ n)
      exact Int.ofNat_zero_le _

theorem mathCeilDiv_eq_ceil (a b : Int) (hb : 0 < b) :
    mathCeilDiv a b = ⌈(a : ℚ) / (b : ℚ)⌉ := by
  have hbQ : (0 : ℚ) < (b : ℚ) := by exact_mod_cast hb
  rw [eq_comm, Int.ceil_eq_iff]
  unfold mathCeilDiv
  rw [Int.fdiv_eq_ediv _ hb.le]
  have h1 : -a < ((-a) / b + 1) * b := Int.lt_ediv_add_one_mul_self _ hb
  have h2 : ((-a) / b) * b ≤ -a := Int.ediv_mul_le _ hb.ne'
  constructor
  · rw [lt_div_iff₀ hbQ]
    have : (-((-a) / b) - 1) * b < a := by nlinarith
    push_cast
    exact_mod_cast this
  · rw [div_le_iff₀ hbQ]
    have : a ≤ -((-a) / b) * b := by nlinarith
    push_cast
    exact_mod_cast this

theorem mathCeilDiv_pos {a b : Int} (ha : 0 < a) (hb : 0 < b) :
    0 < mathCeilDiv a b := by
  have : (-a).fdiv b < 0 := Int.fdiv_neg' (by omega) hb
  unfold mathCeilDiv
  omega

theorem mathCeilDiv_nonpos_of_nonpos_of_pos {a b : Int} (ha : a ≤ 0) (hb : 0 < b) :
    mathCeilDiv a b ≤ 0 := by
  have : 0 ≤ (-a).fdiv b := Int.fdiv_nonneg (by omega) hb.le
  unfold mathCeilDiv
  omega

theorem mathCeilDiv_nonpos_of_nonneg_of_neg {a b : Int} (ha : 0 ≤ a) (hb : b < 0) :
    mathCeilDiv a b ≤ 0 := by
  have : 0 ≤ (-a).fdiv b := fdiv_nonneg_of_nonpos_of_neg (by omega) hb
  unfold mathCeilDiv
  omega

theorem mathCeilDiv_eq_one {a b : Int} (ha : 0 < a) (hab : a ≤ b) :
    mathCeilDiv a b = 1 := by
  have hb : 0 < b := lt_of_lt_of_le ha hab
  have hbQ : (0 : ℚ) < (b : ℚ) := by exact_mod_cast hb
  rw [mathCeilDiv_eq_ceil a b hb, Int.ceil_eq_iff]
  constructor
  · push_cast
    simp only [sub_self]
    exact div_pos (by exact_mod_cast ha) hbQ
  · push_cast
    rw [div_le_one hbQ]
    exact_mod_cast hab

/-! ## End-date computation: success formula and the claims about it -/

theorem calculate_end_date_ok_formula (sd md ts di : Int) (freq : String) (st : Option Int)
    (hmd : md ≠ 0)
    (hfreq : freq = "HOUR(S)" ∨ freq = "DAY(S)" ∨ freq = "WEEK(S)") :
    calculate_end_date sd md freq ts di st =
      Except.ok ((if freq = "HOUR(S)" then st.getD sd else sd) +
        (if mathCeilDiv ts md > 0 then mathCeilDiv ts md - 1 else 0) * di *
          frequencyUs freq) := by
  rcases hfreq with h | h | h <;> subst h <;> rcases st with _ | t <;>
    simp [calculate_end_date, frequencyUs, hmd]

/-- C1: for positive `max_dosage`, `total_supply`, `dosage_interval` and a
recognized `dosage_frequency`, `calculate_end_date` returns the anchor plus
`(ceil(total_supply / max_dosage) - 1) * dosage_interval` expressed in the
frequency unit, where the anchor is `start_time` for hourly dosing with a
supplied `start_time` and `start_date` otherwise; when
`total_supply <= max_dosage` the result is the anchor exactly. -/
theorem C1_calculate_end_date_formula (start_date max_dosage total_supply dosage_interval : Int)
    (dosage_frequency : String) (start_time : Option Int)
    (hmd : 0 < max_dosage) (hts : 0 < total_supply) (hdi : 0 < dosage_interval)
    (hfreq : dosage_frequency = "HOUR(S)" ∨ dosage_frequency = "DAY(S)" ∨
      dosage_frequency = "WEEK(S)") :
    calculate_end_date start_date max_dosage dosage_frequency total_supply dosage_interval
        start_time =
      Except.ok ((if dosage_frequency = "HOUR(S)" then start_time.getD start_date
          else start_date) +
        (⌈(total_supply : ℚ) / (max_dosage : ℚ)⌉ - 1) * dosage_interval *
          frequencyUs dosage_frequency) ∧
    (total_supply ≤ max_dosage →
      calculate_end_date start_date max_dosage dosage_frequency total_supply dosage_interval
          start_time =
        Except.ok (if dosage_frequency = "HOUR(S)" then start_time.getD start_date
          else start_date)) := by
  have hpos : mathCeilDiv total_supply max_dosage > 0 := mathCeilDiv_pos hts hmd
  constructor
  · rw [calculate_end_date_ok_formula start_date max_dosage total_supply dosage_interval
      dosage_frequency start_time hmd.ne' hfreq, if_pos hpos,
      mathCeilDiv_eq_ceil total_supply max_dosage hmd]
  · intro hle
    rw [calculate_end_date_ok_formula start_date max_dosage total_supply dosage_interval
      dosage_frequency start_time hmd.ne' hfreq, if_pos hpos,
      mathCeilDiv_eq_one hts hle]
    simp

/-- Witness for C1 at the spec's example: 3 pills per dose, 30 pills,
every 3 days: 10 doses, 27 days elapsed from the anchor; and the single-dose
case 30 pills, 30 per dose. -/
theorem C1_witness :
    (0 : Int) < 3 ∧ (0 : Int) < 30 ∧
      calculate_end_date 0 3 "DAY(S)" 30 3 none =
        Except.ok ((if ("DAY(S)" : String) = "HOUR(S)" then Option.getD none 0 else 0) +
          (⌈(30 : ℚ) / ((3 : Int) : ℚ)⌉ - 1) * 3 * frequencyUs "DAY(S)") ∧
      calculate_end_date 0 30 "DAY(S)" 30 1 none =
        Except.ok (if ("DAY(S)" : String) = "HOUR(S)" then Option.getD none 0 else 0) :=
  ⟨by decide, by decide,
    (C1_calculate_end_date_formula 0 3 30 3 "DAY(S)" none (by decide) (by decide)
      (by decide) (Or.inr (Or.inl rfl))).1,
    (C1_calculate_end_date_formula 0 30 30 1 "DAY(S)" none (by decide) (by decide)
      (by decide) (Or.inr (Or.inl rfl))).2 (by decide)⟩

/-- C2 counterexample: `max_dosage = -1 <= 0` with a recognized frequency is
not rejected at all: the call returns normally (the anchor), raising no
`ValueError`/`InvalidArgument`. -/
theorem C2_counterexample :
    calculate_end_date 0 (-1) "DAY(S)" 5 1 none = Except.ok 0 := by
  decide

/-- C2 amended: `calculate_end_date` performs no positivity validation.
`max_dosage = 0` fails with `ZeroDivisionError` at the division (not with an
`InvalidArgument` `ValueError`); `max_dosage < 0` with `total_supply >= 0`,
and `max_dosage > 0` with `total_supply <= 0`, return normally with the
anchor as the result (the non-positive dose count is clamped to zero added
time). -/
theorem C2_amended_no_validation (sd md ts di : Int) (freq : String) (st : Option Int)
    (hfreq : freq = "HOUR(S)" ∨ freq = "DAY(S)" ∨ freq = "WEEK(S)") :
    (md = 0 → calculate_end_date sd md freq ts di st =
      Except.error CalcError.zeroDivisionError) ∧
    (md < 0 → 0 ≤ ts →
      calculate_end_date sd md freq ts di st =
        Except.ok (if freq = "HOUR(S)" then st.getD sd else sd)) ∧
    (0 < md → ts ≤ 0 →
      calculate_end_date sd md freq ts di st =
        Except.ok (if freq = "HOUR(S)" then st.getD sd else sd)) := by
  refine ⟨fun h0 => by simp [calculate_end_date, h0], fun hmd hts => ?_, fun hmd hts => ?_⟩
  · have hng : ¬ (mathCeilDiv ts md > 0) := by
      have := mathCeilDiv_nonpos_of_nonneg_of_neg hts hmd
      omega
    rw [calculate_end_date_ok_formula sd md ts di freq st (by omega) hfreq, if_neg hng]
    simp
  · have hng : ¬ (mathCeilDiv ts md > 0) := by
      have := mathCeilDiv_nonpos_of_nonpos_of_pos hts hmd
      omega
    rw [calculate_end_date_ok_formula sd md ts di freq st (by omega) hfreq, if_neg hng]
    simp

/-- Witness for C2 (amended): at `max_dosage = 0` the zero division fires;
at `max_dosage = -1, total_supply = 5` and at `max_dosage = 2,
total_supply = 0` the call returns the anchor. -/
theorem C2_amended_witness :
    calculate_end_date 7 0 "DAY(S)" 5 1 none = Except.error CalcError.zeroDivisionError ∧
      calculate_end_date 7 (-1) "DAY(S)" 5 1 none =
        Except.ok (if ("DAY(S)" : String) = "HOUR(S)" then Option.getD none 7 else 7) ∧
      calculate_end_date 7 2 "DAY(S)" 0 1 none =
        Except.ok (if ("DAY(S)" : String) = "HOUR(S)" then Option.getD none 7 else 7) :=
  ⟨(C2_amended_no_validation 7 0 5 1 "DAY(S)" none (Or.inr (Or.inl rfl))).1 rfl,
    (C2_amended_no_validation 7 (-1) 5 1 "DAY(S)" none (Or.inr (Or.inl rfl))).2.1
      (by decide) (by decide),
    (C2_amended_no_validation 7 2 0 1 "DAY(S)" none (Or.inr (Or.inl rfl))).2.2
      (by decide) (by decide)⟩

/-- C6: with the hour frequency, a supplied `start_time` replaces
`start_date` as the anchor (the call equals the call anchored at
`start_time`); without one the anchor falls back to `start_date`; with the
day or week frequency `start_time` is ignored entirely. -/
theorem C6_anchor_selection (sd t md ts di : Int) (freq : String) (st : Option Int) :
    (calculate_end_date sd md "HOUR(S)" ts di (some t) =
      calculate_end_date t md "HOUR(S)" ts di none) ∧
    (md ≠ 0 →
      calculate_end_date sd md "HOUR(S)" ts di none =
        Except.ok (sd +
          (if mathCeilDiv ts md > 0 then mathCeilDiv ts md - 1 else 0) * di * usPerHour)) ∧
    ((freq = "DAY(S)" ∨ freq = "WEEK(S)") →
      calculate_end_date sd md freq ts di st = calculate_end_date sd md freq ts di none) := by
  refine ⟨by simp [calculate_end_date], fun hmd => ?_, fun hfreq => ?_⟩
  · rw [calculate_end_date_ok_formula sd md ts di "HOUR(S)" none hmd (Or.inl rfl)]
    simp [frequencyUs]
  · rcases hfreq with h | h <;> subst h <;> rcases st with _ | u <;>
      simp [calculate_end_date]

/-- Witness for C6 at concrete inputs: hour frequency anchored at the
supplied start time `5`, the fallback to `start_date = 9`, and a day
frequency ignoring `start_time`. -/
theorem C6_witness :
    (calculate_end_date 9 2 "HOUR(S)" 10 1 (some 5) =
      calculate_end_date 5 2 "HOUR(S)" 10 1 none) ∧
      calculate_end_date 9 2 "HOUR(S)" 10 1 none =
        Except.ok (9 + (if mathCeilDiv 10 2 > 0 then mathCeilDiv 10 2 - 1 else 0) * 1 * usPerHour) ∧
      calculate_end_date 9 2 "DAY(S)" 10 1 (some 5) =
        calculate_end_date 9 2 "DAY(S)" 10 1 none :=
  ⟨(C6_anchor_selection 9 5 2 10 1 "DAY(S)" (some 5)).1,
    (C6_anchor_selection 9 5 2 10 1 "DAY(S)" (some 5)).2.1 (by decide),
    (C6_anchor_selection 9 5 2 10 1 "DAY(S)" (some 5)).2.2 (Or.inl rfl)⟩

/-! ## Reminder schedule: inversion lemmas -/

/-- The unit table of the repeat loop (`calc_reminders.py` lines 102-107):
microseconds per `repeat_unit` unit, in the branch order of the source. -/
def repeatUnitUs (repeat_unit : String) : Int :=
  if repeat_unit = "WEEK(S)" then usPerWeek
  else if repeat_unit = "DAY(S)" then usPerDay
  else usPerHour

theorem repeatUnitUs_cases (pu : String) :
    repeatUnitUs pu = usPerHour ∨ repeatUnitUs pu = usPerDay ∨ repeatUnitUs pu = usPerWeek := by
  unfold repeatUnitUs
  split_ifs <;> simp

theorem repeatUnitUs_pos (pu : String) : 0 < repeatUnitUs pu := by
  rcases repeatUnitUs_cases pu with h | h | h <;> rw [h] <;> decide

theorem replaceTime_ok {t h m s us x : Int} (hx : replaceTime t h m s us = Except.ok x) :
    (0 ≤ h ∧ h < 24 ∧ 0 ≤ m ∧ m < 60 ∧ 0 ≤ s ∧ s < 60 ∧ 0 ≤ us ∧ us < 1000000) ∧
      x = replaceTimeVal t h m s us := by
  unfold replaceTime at hx
  split_ifs at hx with hcond
  exact ⟨hcond, (Except.ok.inj hx).symm⟩

theorem preFirstReminder_ok {ed dp : Int} {ru : String} {x : Int}
    (h : preFirstReminder ed dp ru = Except.ok x) :
    (ru = "WEEK(S)" ∧ x = ed - dp * usPerWeek) ∨
      (ru = "DAY(S)" ∧ x = ed - dp * usPerDay) ∨
      (ru = "(HOUR(S))" ∧ x = ed - dp * usPerHour) := by
  unfold preFirstReminder at h
  split_ifs at h with h1 h2 h3 <;> simp_all

theorem firstReminder_ok {ed dp : Int} {ru : String} {drt : ReminderTime} {f : Int}
    (h : firstReminder ed dp ru drt = Except.ok f) :
    ∃ pre, preFirstReminder ed dp ru = Except.ok pre ∧
      (0 ≤ drt.hour ∧ drt.hour < 24 ∧ 0 ≤ drt.minute ∧ drt.minute < 60) ∧
      f = replaceTimeVal pre drt.hour drt.minute 0 0 := by
  unfold firstReminder at h
  cases hpre : preFirstReminder ed dp ru with
  | error e => rw [hpre] at h; simp [Bind.bind, Except.bind] at h
  | ok pre =>
    rw [hpre] at h
    simp only [Bind.bind, Except.bind] at h
    obtain ⟨hrange, hval⟩ := replaceTime_ok h
    exact ⟨pre, rfl, ⟨hrange.1, hrange.2.1, hrange.2.2.1, hrange.2.2.2.1⟩, hval⟩

theorem reminderLoop_ok {pu : String}
    (hpu : pu = "WEEK(S)" ∨ pu = "DAY(S)" ∨ pu = "HOUR(S)") (f ri : Int) (l : List Nat) :
    reminderLoop f pu ri l =
      Except.ok (l.map (fun (j : Nat) => f + ((j : Int) + 1) * ri * repeatUnitUs pu)) := by
  induction l with
  | nil => rfl
  | cons a tl ih =>
    rcases hpu with h | h | h <;> subst h <;>
      simp_all [reminderLoop, nextReminder, repeatUnitUs, Bind.bind, Except.bind]

theorem reminderLoop_err {pu : String}
    (hpu : ¬ (pu = "WEEK(S)" ∨ pu = "DAY(S)" ∨ pu = "HOUR(S)")) (f ri : Int)
    (a : Nat) (tl : List Nat) :
    reminderLoop f pu ri (a :: tl) = Except.error (CalcError.invalidRepeatUnit pu) := by
  push_neg at hpu
  obtain ⟨hw, hd, hh⟩ := hpu
  simp [reminderLoop, nextReminder, hw, hd, hh, Bind.bind, Except.bind]

theorem calculate_reminder_dates_ok {ed dp rr ri : Int} {ru pu : String}
    {drtOpt : Option ReminderTime} {l : List Int}
    (h : calculate_reminder_dates ed dp ru rr ri pu drtOpt = Except.ok l) :
    ∃ f, firstReminder ed dp ru (drtOpt.getD ⟨8, 0⟩) = Except.ok f ∧
      l = f :: (List.range rr.toNat).map
        (fun (j : Nat) => f + ((j : Int) + 1) * ri * repeatUnitUs pu) ∧
      (rr.toNat = 0 ∨ pu = "WEEK(S)" ∨ pu = "DAY(S)" ∨ pu = "HOUR(S)") := by
  simp only [calculate_reminder_dates] at h
  cases hf : firstReminder ed dp ru (drtOpt.getD ⟨8, 0⟩) with
  | error e => rw [hf] at h; simp [Bind.bind, Except.bind] at h
  | ok f =>
    rw [hf] at h
    simp only [Bind.bind, Except.bind] at h
    by_cases hpu : pu = "WEEK(S)" ∨ pu = "DAY(S)" ∨ pu = "HOUR(S)"
    · rw [reminderLoop_ok hpu f ri] at h
      simp only [Except.ok.injEq] at h
      exact ⟨f, rfl, h.symm, Or.inr hpu⟩
    · by_cases hzero : rr.toNat = 0
      · rw [hzero] at h
        rw [show reminderLoop f pu ri (List.range 0) = Except.ok [] from rfl] at h
        simp only [Except.ok.injEq] at h
        exact ⟨f, rfl, by rw [hzero]; simpa using h.symm, Or.inl hzero⟩
      · obtain ⟨k, hk⟩ := Nat.exists_eq_succ_of_ne_zero hzero
        rw [hk, List.range_succ_eq_map, reminderLoop_err hpu f ri] at h
        simp at h

/-! ## Time-of-day arithmetic under the instant denotation -/

theorem dt_attrs_replace (t h m : Int) (hh0 : 0 ≤ h) (hh : h < 24)
    (hm0 : 0 ≤ m) (hm : m < 60) :
    dtHour (replaceTimeVal t h m 0 0) = h ∧ dtMinute (replaceTimeVal t h m 0 0) = m ∧
      dtSecond (replaceTimeVal t h m 0 0) = 0 ∧ dtMicrosecond (replaceTimeVal t h m 0 0) = 0 := by
  simp only [dtHour, dtMinute, dtSecond, dtMicrosecond, replaceTimeVal, usPerSecond,
    usPerMinute, usPerHour, usPerDay, usPerWeek]
  refine ⟨?_, ?_, ?_, ?_⟩ <;> omega

theorem dt_attrs_add_unit (x k u : Int)
    (hu : u = usPerHour ∨ u = usPerDay ∨ u = usPerWeek) :
    dtMinute (x + k * u) = dtMinute x ∧ dtSecond (x + k * u) = dtSecond x ∧
      dtMicrosecond (x + k * u) = dtMicrosecond x := by
  rcases hu with h | h | h <;> subst h <;>
    simp only [dtMinute, dtSecond, dtMicrosecond, usPerWeek, usPerDay, usPerHour,
      usPerMinute, usPerSecond] <;>
    refine ⟨?_, ?_, ?_⟩ <;> omega

theorem dtHour_add_unit (x k u : Int) (hu : u = usPerDay ∨ u = usPerWeek) :
    dtHour (x + k * u) = dtHour x := by
  rcases hu with h | h <;> subst h <;>
    simp only [dtHour, usPerWeek, usPerDay, usPerHour] <;> omega

/-! ## Claims about the reminder schedule -/

/-- C5: a successful `calculate_reminder_dates` call with
`repeat_reminders >= 0` returns exactly `repeat_reminders + 1` timestamps;
with `repeat_reminders = 0` the schedule is exactly the first reminder. -/
theorem C5_schedule_length (ed dp rr ri : Int) (ru pu : String)
    (drtOpt : Option ReminderTime) (l : List Int)
    (h : calculate_reminder_dates ed dp ru rr ri pu drtOpt = Except.ok l)
    (hrr : 0 ≤ rr) :
    (l.length : Int) = rr + 1 ∧
      (rr = 0 → ∀ f, firstReminder ed dp ru (drtOpt.getD ⟨8, 0⟩) = Except.ok f → l = [f]) := by
  obtain ⟨f, hf, hl, _⟩ := calculate_reminder_dates_ok h
  constructor
  · rw [hl]
    simp only [List.length_cons, List.length_map, List.length_range]
    omega
  · intro h0 f2 hf2
    rw [hf] at hf2
    cases Except.ok.inj hf2
    rw [hl, h0]
    simp

/-- Witness for C5: one repeat reminder, day unit: two timestamps; zero
repeats: the singleton of the first reminder. -/
theorem C5_witness :
    ((0 : Int) ≤ 1 ∧
      (([8 * usPerHour, 32 * usPerHour] : List Int).length : Int) = 1 + 1) ∧
      ((0 : Int) ≤ 0 ∧ ([8 * usPerHour] : List Int) = [8 * usPerHour]) :=
  ⟨⟨by decide,
      (C5_schedule_length 0 0 1 1 "DAY(S)" "DAY(S)" none [8 * usPerHour, 32 * usPerHour]
        (by decide) (by decide)).1⟩,
    ⟨by decide,
      (C5_schedule_length 0 0 0 1 "DAY(S)" "DAY(S)" none [8 * usPerHour]
        (by decide) (by decide)).2 rfl (8 * usPerHour) (by decide)⟩⟩

/-- C7: on success with `repeat_intervals > 0`, the schedule's `i`-th entry
is `first_reminder + i * repeat_intervals` in the repeat unit, and the
schedule is strictly increasing. -/
theorem C7_schedule_arithmetic (ed dp rr ri : Int) (ru pu : String)
    (drtOpt : Option ReminderTime) (l : List Int) (f : Int)
    (h : calculate_reminder_dates ed dp ru rr ri pu drtOpt = Except.ok l)
    (hf : firstReminder ed dp ru (drtOpt.getD ⟨8, 0⟩) = Except.ok f)
    (hri : 0 < ri) :
    (∀ (i : Nat) (hi : i < l.length), l[i] = f + (i : Int) * ri * repeatUnitUs pu) ∧
      l.Pairwise (· < ·) := by
  obtain ⟨f2, hf2, hl, hpu⟩ := calculate_reminder_dates_ok h
  rw [hf] at hf2
  cases Except.ok.inj hf2
  have hget : ∀ (i : Nat) (hi : i < l.length), l[i] = f + (i : Int) * ri * repeatUnitUs pu := by
    intro i hi
    subst hl
    cases i with
    | zero => simp
    | succ j =>
      have hj : j < rr.toNat := by
        simp only [List.length_cons, List.length_map, List.length_range] at hi
        omega
      simp only [List.getElem_cons_succ, List.getElem_map, List.getElem_range]
      push_cast
      ring
  refine ⟨hget, ?_⟩
  rw [List.pairwise_iff_getElem]
  intro i j hi hj hij
  rw [hget i hi, hget j hj]
  have hU : 0 < ri * repeatUnitUs pu := mul_pos hri (repeatUnitUs_pos pu)
  have hcast : (i : Int) < (j : Int) := by exact_mod_cast hij
  have hmul : (i : Int) * (ri * repeatUnitUs pu) < (j : Int) * (ri * repeatUnitUs pu) :=
    mul_lt_mul_of_pos_right hcast hU
  nlinarith [hmul]

/-- Witness for C7 at a concrete schedule: two day-unit repeats with
interval 2, entries at indices 0, 1, 2, strictly increasing. -/
theorem C7_witness :
    (∀ (i : Nat) (hi : i < ([8 * usPerHour, 8 * usPerHour + 2 * usPerDay,
        8 * usPerHour + 4 * usPerDay] : List Int).length),
      ([8 * usPerHour, 8 * usPerHour + 2 * usPerDay,
        8 * usPerHour + 4 * usPerDay] : List Int)[i] =
        8 * usPerHour + (i : Int) * 2 * repeatUnitUs "DAY(S)") ∧
      ([8 * usPerHour, 8 * usPerHour + 2 * usPerDay,
        8 * usPerHour + 4 * usPerDay] : List Int).Pairwise (· < ·) :=
  C7_schedule_arithmetic 0 0 2 2 "DAY(S)" "DAY(S)" none
    [8 * usPerHour, 8 * usPerHour + 2 * usPerDay, 8 * usPerHour + 4 * usPerDay]
    (8 * usPerHour) (by decide) (by decide) (by decide)

/-- Every timestamp of a successful schedule has the normalized minute,
second and microsecond; the first timestamp has the normalized hour, and all
of them do when the repeat unit is a day or week unit. -/
theorem schedule_time_attrs {ed dp rr ri : Int} {ru pu : String}
    {drtOpt : Option ReminderTime} {l : List Int}
    (h : calculate_reminder_dates ed dp ru rr ri pu drtOpt = Except.ok l) :
    (∀ t ∈ l, dtMinute t = (drtOpt.getD ⟨8, 0⟩).minute ∧ dtSecond t = 0 ∧
      dtMicrosecond t = 0) ∧
    (∀ hne : l ≠ [], dtHour (l.head hne) = (drtOpt.getD ⟨8, 0⟩).hour) ∧
    ((pu = "DAY(S)" ∨ pu = "WEEK(S)") →
      ∀ t ∈ l, dtHour t = (drtOpt.getD ⟨8, 0⟩).hour) := by
  obtain ⟨f, hf, hl, _⟩ := calculate_reminder_dates_ok h
  subst hl
  obtain ⟨pre, hpre, hrange, hfval⟩ := firstReminder_ok hf
  have hfattrs := dt_attrs_replace pre (drtOpt.getD ⟨8, 0⟩).hour (drtOpt.getD ⟨8, 0⟩).minute
    hrange.1 hrange.2.1 hrange.2.2.1 hrange.2.2.2
  rw [← hfval] at hfattrs
  have hform : ∀ t ∈ f :: (List.range rr.toNat).map
      (fun (j : Nat) => f + ((j : Int) + 1) * ri * repeatUnitUs pu), t = f ∨
      ∃ k : Int, t = f + k * repeatUnitUs pu := by
    intro t ht
    rcases List.mem_cons.mp ht with rfl | hmem
    · exact Or.inl rfl
    · obtain ⟨j, hj, rfl⟩ := List.mem_map.mp hmem
      exact Or.inr ⟨((j : Int) + 1) * ri, by ring⟩
  have hcases : repeatUnitUs pu = usPerHour ∨ repeatUnitUs pu = usPerDay ∨
      repeatUnitUs pu = usPerWeek := repeatUnitUs_cases pu
  refine ⟨?_, ?_, ?_⟩
  · intro t ht
    rcases hform t ht with rfl | ⟨k, rfl⟩
    · exact ⟨hfattrs.2.1, hfattrs.2.2.1, hfattrs.2.2.2⟩
    · have hadd := dt_attrs_add_unit f k (repeatUnitUs pu) hcases
      exact ⟨hadd.1.trans hfattrs.2.1, hadd.2.1.trans hfattrs.2.2.1,
        hadd.2.2.trans hfattrs.2.2.2⟩
  · intro hne
    simp only [List.head_cons]
    exact hfattrs.1
  · intro hpu t ht
    have hdw : repeatUnitUs pu = usPerDay ∨ repeatUnitUs pu = usPerWeek := by
      rcases hpu with h1 | h1 <;> subst h1 <;> simp [repeatUnitUs]
    rcases hform t ht with rfl | ⟨k, rfl⟩
    · exact hfattrs.1
    · exact (dtHour_add_unit f k (repeatUnitUs pu) hdw).trans hfattrs.1

/-- C3 counterexample: with the hour repeat unit (`repeat_intervals = 5`)
the second timestamp's hour is 13, not the default 8: the entries do not all
share the default time-of-day. -/
theorem C3_counterexample :
    calculate_reminder_dates 0 0 "DAY(S)" 1 5 "HOUR(S)" none =
      Except.ok [28800000000, 46800000000] ∧
      dtHour 46800000000 = 13 ∧ dtMinute 46800000000 = 0 ∧
      (Option.getD (none : Option ReminderTime) ⟨8, 0⟩).hour = 8 := by
  decide

/-- C3 amended: on a successful `calculate_reminder_dates` call every
timestamp has minute equal to `default_reminder_time`'s minute (default 0);
the first timestamp has its hour, and all timestamps have its hour when the
repeat unit is the day or week unit — but not, in general, for the hour
repeat unit, whose offsets change the hour of day. -/
theorem C3_amended_time_of_day (ed dp rr ri : Int) (ru pu : String)
    (drtOpt : Option ReminderTime) (l : List Int)
    (h : calculate_reminder_dates ed dp ru rr ri pu drtOpt = Except.ok l) :
    (∀ t ∈ l, dtMinute t = (drtOpt.getD ⟨8, 0⟩).minute) ∧
      (∀ hne : l ≠ [], dtHour (l.head hne) = (drtOpt.getD ⟨8, 0⟩).hour) ∧
      ((pu = "DAY(S)" ∨ pu = "WEEK(S)") →
        ∀ t ∈ l, dtHour t = (drtOpt.getD ⟨8, 0⟩).hour) :=
  ⟨fun t ht => ((schedule_time_attrs h).1 t ht).1, (schedule_time_attrs h).2.1,
    (schedule_time_attrs h).2.2⟩

/-- Witness for C3 (amended) on a concrete two-entry day-unit schedule:
minute and hour of the second entry match the default time 8:00. -/
theorem C3_amended_witness :
    dtMinute 115200000000 = (Option.getD (none : Option ReminderTime) ⟨8, 0⟩).minute ∧
      dtHour 115200000000 = (Option.getD (none : Option ReminderTime) ⟨8, 0⟩).hour :=
  ⟨(C3_amended_time_of_day 0 0 1 1 "DAY(S)" "DAY(S)" none [28800000000, 115200000000]
      (by decide)).1 115200000000 (by decide),
    (C3_amended_time_of_day 0 0 1 1 "DAY(S)" "DAY(S)" none [28800000000, 115200000000]
      (by decide)).2.2 (Or.inl rfl) 115200000000 (by decide)⟩

/-- C10: on a successful `calculate_reminder_dates` call every timestamp has
second and microsecond zero and minute equal to `default_reminder_time`'s
minute (0 by default), the hour repeat unit included. -/
theorem C10_normalized_seconds (ed dp rr ri : Int) (ru pu : String)
    (drtOpt : Option ReminderTime) (l : List Int)
    (h : calculate_reminder_dates ed dp ru rr ri pu drtOpt = Except.ok l) :
    ∀ t ∈ l, dtSecond t = 0 ∧ dtMicrosecond t = 0 ∧
      dtMinute t = (drtOpt.getD ⟨8, 0⟩).minute := by
  intro t ht
  obtain ⟨hmin, hsec, hus⟩ := (schedule_time_attrs h).1 t ht
  exact ⟨hsec, hus, hmin⟩

/-- Witness for C10 on an hour-repeat-unit schedule: the second entry
(13:00) still has second, microsecond zero and the default minute. -/
theorem C10_witness :
    dtSecond 46800000000 = 0 ∧ dtMicrosecond 46800000000 = 0 ∧
      dtMinute 46800000000 = (Option.getD (none : Option ReminderTime) ⟨8, 0⟩).minute :=
  C10_normalized_seconds 0 0 1 5 "DAY(S)" "HOUR(S)" none [28800000000, 46800000000]
    (by decide) 46800000000 (by decide)

/-- C8 counterexample: an unrecognized `repeat_unit` does not always fail:
with `repeat_reminders = 0` the loop never runs and `"MONTH(S)"` is accepted,
the call returning a singleton schedule. -/
theorem C8_counterexample :
    calculate_reminder_dates 0 0 "DAY(S)" 0 1 "MONTH(S)" none =
      Except.ok [28800000000] := by
  decide

/-- C8 amended: `calculate_reminder_dates` recognizes exactly `"WEEK(S)"`,
`"DAY(S)"` and `"(HOUR(S))"` as `reminder_unit` — in particular the standard
`"HOUR(S)"` token fails with `InvalidArgument`, making hour-based prior
reminders unreachable; an unrecognized `repeat_unit` fails iff the loop runs
(`repeat_reminders >= 1`); an unrecognized `dosage_frequency` fails with
`InvalidArgument` provided `max_dosage ≠ 0` (at `max_dosage = 0` the zero
division preempts it). -/
theorem C8_amended_unit_recognition (ed dp rr ri sd md ts di : Int) (ru pu freq : String)
    (drtOpt : Option ReminderTime) (st : Option Int) :
    (¬ (ru = "WEEK(S)" ∨ ru = "DAY(S)" ∨ ru = "(HOUR(S))") →
      calculate_reminder_dates ed dp ru rr ri pu drtOpt =
        Except.error (CalcError.invalidReminderUnit ru)) ∧
    (calculate_reminder_dates ed dp "HOUR(S)" rr ri pu drtOpt =
      Except.error (CalcError.invalidReminderUnit "HOUR(S)")) ∧
    (∀ f, firstReminder ed dp ru (drtOpt.getD ⟨8, 0⟩) = Except.ok f →
      ¬ (pu = "WEEK(S)" ∨ pu = "DAY(S)" ∨ pu = "HOUR(S)") → 1 ≤ rr →
      calculate_reminder_dates ed dp ru rr ri pu drtOpt =
        Except.error (CalcError.invalidRepeatUnit pu)) ∧
    (¬ (freq = "HOUR(S)" ∨ freq = "DAY(S)" ∨ freq = "WEEK(S)") → md ≠ 0 →
      calculate_end_date sd md freq ts di st =
        Except.error (CalcError.invalidDosageFrequency freq)) := by
  refine ⟨fun hru => ?_, ?_, fun f hf hpu hrr => ?_, fun hfreq hmd => ?_⟩
  · push_neg at hru
    obtain ⟨h1, h2, h3⟩ := hru
    simp [calculate_reminder_dates, firstReminder, preFirstReminder, h1, h2, h3,
      Bind.bind, Except.bind]
  · simp [calculate_reminder_dates, firstReminder, preFirstReminder,
      Bind.bind, Except.bind]
  · simp only [calculate_reminder_dates]
    rw [hf]
    simp only [Bind.bind, Except.bind]
    have hk : rr.toNat = (rr.toNat - 1) + 1 := by omega
    rw [hk, List.range_succ_eq_map, reminderLoop_err hpu f ri]
  · push_neg at hfreq
    obtain ⟨h1, h2, h3⟩ := hfreq
    simp [calculate_end_date, hmd, h1, h2, h3]

/-- Witness for C8 (amended) at concrete inputs: `"MONTH(S)"` as
`reminder_unit` is rejected; `"HOUR(S)"` as `reminder_unit` is rejected;
`"MONTH(S)"` as `repeat_unit` is rejected once `repeat_reminders = 1`;
`"MONTH(S)"` as `dosage_frequency` is rejected when `max_dosage = 1`. -/
theorem C8_amended_witness :
    calculate_reminder_dates 0 0 "MONTH(S)" 0 1 "DAY(S)" none =
        Except.error (CalcError.invalidReminderUnit "MONTH(S)") ∧
      calculate_reminder_dates 0 0 "HOUR(S)" 0 1 "DAY(S)" none =
        Except.error (CalcError.invalidReminderUnit "HOUR(S)") ∧
      calculate_reminder_dates 0 0 "DAY(S)" 1 1 "MONTH(S)" none =
        Except.error (CalcError.invalidRepeatUnit "MONTH(S)") ∧
      calculate_end_date 0 1 "MONTH(S)" 5 1 none =
        Except.error (CalcError.invalidDosageFrequency "MONTH(S)") :=
  ⟨(C8_amended_unit_recognition 0 0 0 1 0 1 5 1 "MONTH(S)" "DAY(S)" "MONTH(S)" none
      none).1 (by decide),
    (C8_amended_unit_recognition 0 0 0 1 0 1 5 1 "MONTH(S)" "DAY(S)" "MONTH(S)" none
      none).2.1,
    (C8_amended_unit_recognition 0 0 1 1 0 1 5 1 "DAY(S)" "MONTH(S)" "MONTH(S)" none
      none).2.2.1 28800000000 (by decide) (by decide) (by decide),
    (C8_amended_unit_recognition 0 0 1 1 0 1 5 1 "DAY(S)" "MONTH(S)" "MONTH(S)" none
      none).2.2.2 (by decide) (by decide)⟩

/-! ## Serialization round trip -/

theorem daysInMonth_le (y m : Nat) : daysInMonth y m ≤ 31 := by
  unfold daysInMonth
  split_ifs <;> omega

theorem readDigit_digitChar {n : Nat} (h : n < 10) : readDigit (digitChar n) = some n := by
  interval_cases n <;> decide

theorem read2_pad2 (n : Nat) (h : n < 100) (rest : List Char) :
    read2 (pad2 n ++ rest) = some (n, rest) := by
  have h1 : n / 10 % 10 < 10 := Nat.mod_lt _ (by norm_num)
  have h2 : n % 10 < 10 := Nat.mod_lt _ (by norm_num)
  simp [pad2, read2, readDigit_digitChar h1, readDigit_digitChar h2, Bind.bind, Option.bind]
  omega

theorem read2_pad2_nil (n : Nat) (h : n < 100) : read2 (pad2 n) = some (n, []) := by
  have := read2_pad2 n h []
  simpa using this

theorem read4_pad4 (n : Nat) (h : n < 10000) (rest : List Char) :
    read4 (pad4 n ++ rest) = some (n, rest) := by
  have h1 : n / 1000 % 10 < 10 := Nat.mod_lt _ (by norm_num)
  have h2 : n / 100 % 10 < 10 := Nat.mod_lt _ (by norm_num)
  have h3 : n / 10 % 10 < 10 := Nat.mod_lt _ (by norm_num)
  have h4 : n % 10 < 10 := Nat.mod_lt _ (by norm_num)
  simp [pad4, read4, readDigit_digitChar h1, readDigit_digitChar h2,
    readDigit_digitChar h3, readDigit_digitChar h4, Bind.bind, Option.bind]
  omega

theorem read6_pad6_nil (n : Nat) (h : n < 1000000) : read6 (pad6 n) = some (n, []) := by
  have h1 : n / 100000 % 10 < 10 := Nat.mod_lt _ (by norm_num)
  have h2 : n / 10000 % 10 < 10 := Nat.mod_lt _ (by norm_num)
  have h3 : n / 1000 % 10 < 10 := Nat.mod_lt _ (by norm_num)
  have h4 : n / 100 % 10 < 10 := Nat.mod_lt _ (by norm_num)
  have h5 : n / 10 % 10 < 10 := Nat.mod_lt _ (by norm_num)
  have h6 : n % 10 < 10 := Nat.mod_lt _ (by norm_num)
  simp [pad6, read6, readDigit_digitChar h1, readDigit_digitChar h2,
    readDigit_digitChar h3, readDigit_digitChar h4, readDigit_digitChar h5,
    readDigit_digitChar h6, Bind.bind, Option.bind]
  omega

theorem parseIso_isoformat (d : PyDateTime) (h : d.Valid) : parseIso (isoformat d) = some d := by
  obtain ⟨y, mo, dd, hh, mi, ss, us⟩ := d
  obtain ⟨h1, h2, h3, h4, h5, h6, h7, h8, h9, h10⟩ := h
  simp only at h1 h2 h3 h4 h5 h6 h7 h8 h9 h10
  have hdm : dd < 100 := by
    have := daysInMonth_le y mo
    omega
  by_cases hus : us = 0
  · subst hus
    simp [isoformat, parseIso, read4_pad4 y (by omega), read2_pad2 mo (by omega),
      read2_pad2 dd (by omega), read2_pad2 hh (by omega), read2_pad2 mi (by omega),
      read2_pad2_nil ss (by omega), expectChar, Bind.bind, Option.bind]
  · simp [isoformat, parseIso, hus, read4_pad4 y (by omega), read2_pad2 mo (by omega),
      read2_pad2 dd (by omega), read2_pad2 hh (by omega), read2_pad2 mi (by omega),
      read2_pad2 ss (by omega), read6_pad6_nil us (by omega), expectChar,
      Bind.bind, Option.bind]

theorem fromisoformat_isoformat (d : PyDateTime) (h : d.Valid) :
    fromisoformat (isoformat d) = Except.ok d := by
  unfold fromisoformat
  rw [parseIso_isoformat d h]
  simp [h]

/-- C4: serializing a list of naive datetimes to ISO text and deserializing
it back is a lossless round trip on every list of valid timestamps —
including the empty and singleton lists, and in particular every schedule a
successful `calculate_reminder_dates` call produces. -/
theorem C4_serialize_roundtrip (s : List PyDateTime) (h : ∀ d ∈ s, d.Valid) :
    deserialize_reminder_dates (serialize_reminder_dates s) = Except.ok s := by
  induction s with
  | nil => rfl
  | cons d tl ih =>
    have hd : d.Valid := h d (List.mem_cons_self d tl)
    have htl := ih (fun x hx => h x (List.mem_cons_of_mem d hx))
    simp only [serialize_reminder_dates, List.map_cons] at htl ⊢
    simp [deserialize_reminder_dates, fromisoformat_isoformat d hd, htl,
      Bind.bind, Except.bind]

/-- Witness for C4 on a singleton schedule (the spec scenario's first
reminder, 2025-01-07T08:00:00) and implicitly the empty case handled by the
same theorem. -/
theorem C4_witness :
    deserialize_reminder_dates
        (serialize_reminder_dates [⟨2025, 1, 7, 8, 0, 0, 0⟩]) =
      Except.ok [⟨2025, 1, 7, 8, 0, 0, 0⟩] :=
  C4_serialize_roundtrip [⟨2025, 1, 7, 8, 0, 0, 0⟩] (by decide)

/-! ## The orchestration step's frame -/

/-- C9: on success, `process_medication_reminders` stores the computed end
date and the serialized schedule on the record, leaves every other field of
the record unchanged, and returns a dictionary whose `medication` is that
record, whose `end_date` is the stored end date (the value
`calculate_end_date` returned), and whose `reminder_dates` (the value
`calculate_reminder_dates` returned) serializes to the stored
`reminder_dates`. -/
theorem C9_process_frame (med : Medication) (drtOpt : Option ReminderTime)
    (r : ProcessResult)
    (h : process_medication_reminders med drtOpt = Except.ok r) :
    calculate_end_date med.start_date med.max_dosage med.dosage_frequency med.total_supply
        med.dosage_interval med.start_time = Except.ok r.end_date ∧
    calculate_reminder_dates r.end_date med.duration_prior med.reminder_unit
        med.repeat_reminders med.repeat_intervals med.repeat_unit drtOpt =
      Except.ok r.reminder_dates ∧
    r.medication.end_date = r.end_date ∧
    r.medication.reminder_dates = serialize_reminder_dates (r.reminder_dates.map ofInstant) ∧
    r.medication.id = med.id ∧
    r.medication.user_id = med.user_id ∧
    r.medication.med_name = med.med_name ∧
    r.medication.icon = med.icon ∧
    r.medication.color = med.color ∧
    r.medication.details = med.details ∧
    r.medication.max_dosage = med.max_dosage ∧
    r.medication.dosage_interval = med.dosage_interval ∧
    r.medication.dosage_frequency = med.dosage_frequency ∧
    r.medication.total_supply = med.total_supply ∧
    r.medication.start_date = med.start_date ∧
    r.medication.start_time = med.start_time ∧
    r.medication.duration_prior = med.duration_prior ∧
    r.medication.reminder_unit = med.reminder_unit ∧
    r.medication.repeat_reminders = med.repeat_reminders ∧
    r.medication.repeat_intervals = med.repeat_intervals ∧
    r.medication.repeat_unit = med.repeat_unit ∧
    r.medication.created_at = med.created_at := by
  simp only [process_medication_reminders] at h
  cases hed : calculate_end_date med.start_date med.max_dosage med.dosage_frequency
      med.total_supply med.dosage_interval med.start_time with
  | error e => rw [hed] at h; simp [Bind.bind, Except.bind] at h
  | ok ed =>
    rw [hed] at h
    simp only [Bind.bind, Except.bind] at h
    cases hrd : calculate_reminder_dates ed med.duration_prior med.reminder_unit
        med.repeat_reminders med.repeat_intervals med.repeat_unit drtOpt with
    | error e => rw [hrd] at h; simp at h
    | ok rds =>
      rw [hrd] at h
      simp only [Except.ok.injEq] at h
      subst h
      exact ⟨rfl, hrd, rfl, rfl, rfl, rfl, rfl, rfl, rfl, rfl, rfl, rfl, rfl, rfl,
        rfl, rfl, rfl, rfl, rfl, rfl, rfl, rfl⟩

/-- A concrete medication record for evaluating the processing step:
2 pills per day-dose, 2 pills of supply (a single dose), starting
2025-01-01, first reminder on the end date itself, no repeats. -/
def exampleMedication : Medication :=
  ⟨1, 1, "med", 1, 1, none, 2, 1, "DAY(S)", 2, 739557 * usPerDay, none, 0, 0,
    "DAY(S)", 0, 1, "DAY(S)", [], 0⟩

/-- What processing `exampleMedication` stores and returns: the end date
2025-01-01 (one dose), the schedule `[2025-01-01T08:00:00]`, and its
serialized form written onto the record. -/
def exampleProcessed : ProcessResult :=
  ⟨⟨1, 1, "med", 1, 1, none, 2, 1, "DAY(S)", 2, 739557 * usPerDay, none,
      739557 * usPerDay, 0, "DAY(S)", 0, 1, "DAY(S)",
      [['2', '0', '2', '5', '-', '0', '1', '-', '0', '1', 'T', '0', '8', ':',
        '0', '0', ':', '0', '0']], 0⟩,
    739557 * usPerDay, [739557 * usPerDay + 8 * usPerHour]⟩

/-- Witness for C9 at `exampleMedication`: the processing step succeeds with
`exampleProcessed`, and the frame/effect conclusions hold there. -/
theorem C9_witness :
    process_medication_reminders exampleMedication none = Except.ok exampleProcessed ∧
      exampleProcessed.medication.end_date = exampleProcessed.end_date ∧
      exampleProcessed.medication.reminder_dates =
        serialize_reminder_dates (exampleProcessed.reminder_dates.map ofInstant) ∧
      exampleProcessed.medication.med_name = exampleMedication.med_name := by
  have hproc : process_medication_reminders exampleMedication none =
      Except.ok exampleProcessed := by decide
  have hmain := C9_process_frame exampleMedication none exampleProcessed hproc
  exact ⟨hproc, hmain.2.2.1, hmain.2.2.2.1, hmain.2.2.2.2.2.2.1⟩

end RefillRadar
